import Mathlib

/-!
Shallow embedding of the Hadith-App backend (FastAPI + SQLAlchemy) selection
and favorites logic, translated from `src/routers/hadiths.py`,
`src/routers/favorites.py` and `src/database.py`.

Database tables are modelled as lists of rows; SQL `SELECT ... WHERE` is
`List.filter` / `List.find?`, `ORDER BY hadith_number` is a stable sort on
the stored row order (the query requests no tie-break, so ties keep the
order in which the store yields them), `LIMIT s OFFSET o` is
`(List.drop o) ∘ (List.take s)` composition, and the process-wide `random`
module generator is threaded explicitly as a state parameter shared by all
endpoints, exactly as the Python module-level generator is shared.
-/

namespace HadithApp

/-- Row of the `hadiths` table (`database.py`), restricted to the columns the
selection and favorites logic reads: primary key, foreign keys, ordering key
and grade. -/
structure Hadith where
  id : String
  collection_id : String
  chapter_id : String
  hadith_number : Nat
  grade : String
  deriving DecidableEq, Repr

/-- Row of the `collections` table, restricted to the primary key which is
all the router logic consults. -/
structure Collection where
  id : String
  deriving DecidableEq, Repr

/-- Row of the `chapters` table, restricted to the columns the logic reads. -/
structure Chapter where
  id : String
  collection_id : String
  deriving DecidableEq, Repr

/-- Row of the `favorites` table. -/
structure Favorite where
  id : Nat
  user_id : Nat
  hadith_id : String
  notes : Option String
  deriving DecidableEq, Repr

/-- Database state: the four tables the routers touch, plus the autoincrement
counter for `favorites.id`. -/
structure DB where
  collections : List Collection
  chapters : List Chapter
  hadiths : List Hadith
  favorites : List Favorite
  nextFavoriteId : Nat
  deriving DecidableEq, Repr

/-- Error raised via `HTTPException`. -/
inductive Err where
  | badRequest (detail : String)
  | notFound (detail : String)
  deriving DecidableEq, Repr

/-- HTTP status code of an error. -/
def Err.statusCode : Err → Nat
  | .badRequest _ => 400
  | .notFound _ => 404

/-! ### Date handling: `datetime.strptime(date_param, "%Y-%m-%d").date()`
and `date.toordinal()` from the CPython standard library, as called by
`get_daily_hadith`. CPython parses `%Y` as exactly four digits, `%m` with
the ordered alternation `1[0-2]|0[1-9]|[1-9]`, and `%d` with
`3[01]|[12][0-9]|0[1-9]|[1-9]| [1-9]`, then validates the triple through the
`datetime` constructor (year at least 1, day within the month). -/

/-- Calendar date as produced by `datetime.date`. -/
structure PyDate where
  year : Nat
  month : Nat
  day : Nat
  deriving DecidableEq, Repr

/-- Numeric value of a digit character. -/
def dv (c : Char) : Nat := c.toNat - 48

/-- Matches a digit in `[1-9]`. -/
def digit19 (c : Char) : Bool := c.isDigit && c != '0'

/-- Parses `%Y`: exactly four digits. -/
def parseYear? : List Char → Option (Nat × List Char)
  | a :: b :: c :: d :: rest =>
    if a.isDigit && b.isDigit && c.isDigit && d.isDigit then
      some (1000 * dv a + 100 * dv b + 10 * dv c + dv d, rest)
    else none
  | _ => none

/-- Parses the literal `-` separator of the format string. -/
def parseDash? : List Char → Option (List Char)
  | '-' :: rest => some rest
  | _ => none

/-- Parses `%m`: ordered alternation `1[0-2]|0[1-9]|[1-9]`. -/
def parseMonth? : List Char → Option (Nat × List Char)
  | [] => none
  | [a] => if digit19 a then some (dv a, []) else none
  | a :: b :: rest =>
    if a == '1' && (b == '0' || b == '1' || b == '2') then some (10 + dv b, rest)
    else if a == '0' && digit19 b then some (dv b, rest)
    else if digit19 a then some (dv a, b :: rest)
    else none

/-- Parses `%d`: ordered alternation `3[01]|[12][0-9]|0[1-9]|[1-9]| [1-9]`. -/
def parseDay? : List Char → Option (Nat × List Char)
  | [] => none
  | [a] => if digit19 a then some (dv a, []) else none
  | a :: b :: rest =>
    if a == '3' && (b == '0' || b == '1') then some (30 + dv b, rest)
    else if (a == '1' || a == '2') && b.isDigit then some (10 * dv a + dv b, rest)
    else if a == '0' && digit19 b then some (dv b, rest)
    else if digit19 a then some (dv a, b :: rest)
    else if a == ' ' && digit19 b then some (dv b, rest)
    else none

/-- Gregorian leap-year test (`calendar.isleap`). -/
def isLeapYear (y : Nat) : Bool := y % 4 == 0 && (y % 100 != 0 || y % 400 == 0)

/-- Number of days in a month (`calendar.monthrange`). -/
def daysInMonth (y m : Nat) : Nat :=
  if m == 2 then (if isLeapYear y then 29 else 28)
  else if m == 4 || m == 6 || m == 9 || m == 11 then 30
  else 31

/-- Full behaviour of `datetime.strptime(s, "%Y-%m-%d").date()`: regex match
of the whole string, then range validation by the `datetime` constructor
(`MINYEAR = 1`; day must exist in the month). Returns `none` exactly when
CPython raises `ValueError`. -/
def parseDate (s : String) : Option PyDate := do
  let (y, r1) ← parseYear? s.toList
  let r2 ← parseDash? r1
  let (m, r3) ← parseMonth? r2
  let r4 ← parseDash? r3
  let (d, r5) ← parseDay? r4
  match r5 with
  | [] => if 1 ≤ y && d ≤ daysInMonth y m then some ⟨y, m, d⟩ else none
  | _ => none

/-- Days in the months strictly before month `m` of year `y`. -/
def daysBeforeMonth (y m : Nat) : Nat :=
  (List.range (m - 1)).foldl (fun acc k => acc + daysInMonth y (k + 1)) 0

/-- Proleptic Gregorian ordinal of a date, `date.toordinal()`:
day 1 is January 1 of year 1. -/
def toOrdinal (d : PyDate) : Nat :=
  let py := d.year - 1
  365 * py + (py / 4 + py / 400 - py / 100) + daysBeforeMonth d.year d.month + d.day

/-! ### Pseudo-random generator interface

The routers use the module-level generator of Python's `random` module:
`random.seed(n)` resets its state from an integer, and `random.randint(a, b)`
draws an integer in the inclusive range `[a, b]` and advances the state. The
embedding abstracts over the concrete Mersenne-Twister implementation: any
deterministic generator whose `randint` respects the range bounds. -/

/-- Deterministic pseudo-random generator with state type `σ`:
`seed` builds a state from an integer, `randint st a b` returns a value in
`[a, b]` together with the advanced state. -/
structure PRNG (σ : Type) where
  seed : Nat → σ
  randint : σ → Nat → Nat → Nat × σ
  randint_le : ∀ st a b, a ≤ b → a ≤ (randint st a b).1 ∧ (randint st a b).1 ≤ b

/-! ### `ORDER BY hadith_number`

The queries in `hadiths.py` order results with
`.order_by(hadiths_table.c.hadith_number)` and nothing else: no secondary
sort key is requested, so rows with equal `hadith_number` keep the order in
which the store yields them. The embedding models this as a stable
insertion sort on the stored row order. -/

/-- Inserts a row after every already-placed row whose `hadith_number` is
less than or equal to its own, so equal keys keep their original order. -/
def insertByNumber (a : Hadith) : List Hadith → List Hadith
  | [] => [a]
  | b :: l =>
    if b.hadith_number ≤ a.hadith_number then b :: insertByNumber a l
    else a :: b :: l

/-- Stable sort by `hadith_number` ascending, modelling
`ORDER BY hadith_number`. -/
def sortByNumber (l : List Hadith) : List Hadith :=
  l.foldl (fun acc a => insertByNumber a acc) []

/-! ### Query construction (`build_hadith_query`)

`build_hadith_query` selects from `hadiths` inner-joined to `collections`
and `chapters` on the two foreign keys (the outer join to `favorites` only
annotates the boolean `is_favorite` and never changes the row set), then
applies a conjunction of filter conditions. The inner joins drop a hadith
row exactly when one of its foreign keys dangles. -/

/-- Truth of the inner-join conditions of `build_hadith_query` for one
hadith row: its collection and chapter rows exist. -/
def joinOk (db : DB) (h : Hadith) : Bool :=
  db.collections.any (fun c => c.id == h.collection_id) &&
  db.chapters.any (fun ch => ch.id == h.chapter_id)

/-- Row set produced by `build_hadith_query` under filter condition
`conds`: the hadith rows that survive the inner joins and satisfy the
conjunction of filter conditions. -/
def queryRows (db : DB) (conds : Hadith → Bool) : List Hadith :=
  db.hadiths.filter (fun h => joinOk db h && conds h)

/-- Referential integrity of the hadith foreign keys (the schema enforces
this with `ForeignKey` constraints in `database.py`): every hadith row
survives the joins. -/
def refIntegrity (db : DB) : Bool := db.hadiths.all (joinOk db)

/-- Pagination metadata block (`models.PaginationMeta`). -/
structure PaginationMeta where
  page : Nat
  page_size : Nat
  total_count : Nat
  total_pages : Nat
  has_next : Bool
  has_prev : Bool
  deriving DecidableEq, Repr

/-- Paginated list response: data slice plus metadata
(`models.HadithsResponse`). -/
structure HadithsPage where
  data : List Hadith
  meta : PaginationMeta
  deriving DecidableEq, Repr

/-- Embeds `get_hadiths` (hadiths.py lines 116-173): count the matching
rows, slice the ordered rows with `LIMIT page_size OFFSET (page-1)*page_size`,
and compute the metadata. The search conditions built from the query
parameters are abstracted as the predicate `conds`. -/
def get_hadiths (db : DB) (conds : Hadith → Bool) (page page_size : Nat) :
    HadithsPage :=
  let matching := queryRows db conds
  let total_count := matching.length
  let offset := (page - 1) * page_size
  let data := ((sortByNumber matching).drop offset).take page_size
  let total_pages := (total_count + page_size - 1) / page_size
  { data := data,
    meta := { page := page, page_size := page_size, total_count := total_count,
              total_pages := total_pages,
              has_next := decide (page < total_pages),
              has_prev := decide (1 < page) } }

/-- Filter conditions `build_hadith_query` assembles for
`get_hadiths_by_collection`: `collection_id` equality plus the optional
grade equality. -/
def collectionConds (collection_id : String) (grade : Option String)
    (h : Hadith) : Bool :=
  h.collection_id == collection_id &&
  (match grade with | some g => h.grade == g | none => true)

/-- Embeds `get_hadiths_by_collection` (hadiths.py lines 313-374): 404 when
the collection row is absent, otherwise the same pipeline as `get_hadiths`
with the collection and grade conditions. -/
def get_hadiths_by_collection (db : DB) (collection_id : String)
    (grade : Option String) (page page_size : Nat) : Except Err HadithsPage :=
  match db.collections.find? (fun c => c.id == collection_id) with
  | none => .error (.notFound "Collection not found")
  | some _ => .ok (get_hadiths db (collectionConds collection_id grade) page page_size)

/-! ### Daily and random picks

Both endpoints draw from the same module-level `random` generator: the
state `st` below is that shared generator state. `get_daily_hadith`
resets it with `random.seed(target_date.toordinal())`;
`get_random_hadith` draws from whatever state the module generator
currently has. -/

/-- Filter condition of the daily pick,
`base_filters = {"grade": "Sahih"}` in `get_daily_hadith`. -/
def sahihFilter (h : Hadith) : Bool := h.grade == "Sahih"

/-- Embeds `get_daily_hadith` (hadiths.py lines 175-232). Returns the
response together with the module generator state after the call. -/
def get_daily_hadith {σ : Type} (g : PRNG σ) (db : DB)
    (date_param : Option String) (today : PyDate) (st : σ) :
    Except Err Hadith × σ :=
  let target? : Except Err PyDate :=
    match date_param with
    | some s =>
      match parseDate s with
      | some d => .ok d
      | none => .error (.badRequest "Invalid date format. Use YYYY-MM-DD")
    | none => .ok today
  match target? with
  | .error e => (.error e, st)
  | .ok target =>
    let st1 := g.seed (toOrdinal target)
    let eligible := queryRows db sahihFilter
    let total_count := eligible.length
    if total_count = 0 then
      (.error (.notFound "No hadiths available for daily selection"), st1)
    else
      let drawn := g.randint st1 0 (total_count - 1)
      match ((sortByNumber eligible).drop drawn.1).head? with
      | some h => (.ok h, drawn.2)
      | none => (.error (.notFound "Daily hadith not found"), drawn.2)

/-- Filter conditions of `get_random_hadith`: optional collection and grade
equality; with an authenticated caller and `exclude_favorites`, rows the
caller already favorited are excluded before the count and draw. -/
def randomConds (db : DB) (collection_id : Option String)
    (grade : Option String) (exclude_favorites : Bool) (user_id : Option Nat)
    (h : Hadith) : Bool :=
  (match collection_id with | some c => h.collection_id == c | none => true) &&
  (match grade with | some gr => h.grade == gr | none => true) &&
  (match user_id with
   | some u =>
     !(exclude_favorites &&
       db.favorites.any (fun f => f.user_id == u && f.hadith_id == h.id))
   | none => true)

/-- Embeds `get_random_hadith` (hadiths.py lines 234-285): same
count-then-offset mechanics as the daily pick, drawing from the incoming
module generator state without reseeding. -/
def get_random_hadith {σ : Type} (g : PRNG σ) (db : DB)
    (collection_id : Option String) (grade : Option String)
    (exclude_favorites : Bool) (user_id : Option Nat) (st : σ) :
    Except Err Hadith × σ :=
  let eligible := queryRows db
    (randomConds db collection_id grade exclude_favorites user_id)
  let total_count := eligible.length
  if total_count = 0 then
    (.error (.notFound "No hadiths found matching criteria"), st)
  else
    let drawn := g.randint st 0 (total_count - 1)
    match ((sortByNumber eligible).drop drawn.1).head? with
    | some h => (.ok h, drawn.2)
    | none => (.error (.notFound "Random hadith not found"), drawn.2)

/-! ### Favorites router (`favorites.py`)

Every handler receives the authenticated caller identifier and returns its
response together with the database state after the call (errors raised by
`HTTPException` leave the database untouched). -/

/-- Presence of the (user, hadith) favorite pair in the store. -/
def isFavorited (db : DB) (user_id : Nat) (hadith_id : String) : Bool :=
  db.favorites.any (fun f => f.user_id == user_id && f.hadith_id == hadith_id)

/-- Embeds the helper `get_favorite_with_hadith` (favorites.py lines
364-444): selects the favorite row whose primary key is `favorite_id` AND
whose `user_id` is the caller, inner-joined to its hadith, collection and
chapter rows. -/
def get_favorite_with_hadith (db : DB) (favorite_id : Nat) (user_id : Nat) :
    Option (Favorite × Hadith) :=
  match db.favorites.find? (fun f => f.id == favorite_id && f.user_id == user_id) with
  | none => none
  | some fav =>
    match db.hadiths.find? (fun h => h.id == fav.hadith_id && joinOk db h) with
    | none => none
    | some h => some (fav, h)

/-- Embeds `add_favorite` (favorites.py lines 143-196): 404 when the hadith
row is absent, 400 `Hadith already in favorites` when the pair already
exists, otherwise insert a new favorite row and return it with its hadith. -/
def add_favorite (db : DB) (user_id : Nat) (hadith_id : String)
    (notes : Option String) : Except Err (Option (Favorite × Hadith)) × DB :=
  match db.hadiths.find? (fun h => h.id == hadith_id) with
  | none => (.error (.notFound "Hadith not found"), db)
  | some _ =>
    match db.favorites.find? (fun f => f.user_id == user_id && f.hadith_id == hadith_id) with
    | some _ => (.error (.badRequest "Hadith already in favorites"), db)
    | none =>
      let newFav : Favorite :=
        { id := db.nextFavoriteId, user_id := user_id,
          hadith_id := hadith_id, notes := notes }
      let db1 : DB := { db with favorites := db.favorites ++ [newFav],
                                nextFavoriteId := db.nextFavoriteId + 1 }
      (.ok (get_favorite_with_hadith db1 newFav.id user_id), db1)

/-- Result of `toggle_favorite`: either the freshly created favorite
(fetched back with its hadith) or the removal acknowledgment
`Hadith removed from favorites`. -/
inductive ToggleResult where
  | added (fetched : Option (Favorite × Hadith))
  | removed
  deriving DecidableEq, Repr

/-- Embeds `toggle_favorite` (favorites.py lines 315-362): 404 when the
hadith row is absent; when the pair exists, delete the found row by its
primary key and acknowledge the removal; otherwise insert a new favorite
row and return it. -/
def toggle_favorite (db : DB) (user_id : Nat) (hadith_id : String) :
    Except Err ToggleResult × DB :=
  match db.hadiths.find? (fun h => h.id == hadith_id) with
  | none => (.error (.notFound "Hadith not found"), db)
  | some _ =>
    match db.favorites.find? (fun f => f.user_id == user_id && f.hadith_id == hadith_id) with
    | some existing =>
      let db1 : DB := { db with favorites := db.favorites.filter (fun f => !(f.id == existing.id)) }
      (.ok .removed, db1)
    | none =>
      let newFav : Favorite :=
        { id := db.nextFavoriteId, user_id := user_id,
          hadith_id := hadith_id, notes := none }
      let db1 : DB := { db with favorites := db.favorites ++ [newFav],
                                nextFavoriteId := db.nextFavoriteId + 1 }
      (.ok (.added (get_favorite_with_hadith db1 newFav.id user_id)), db1)

/-- Embeds `remove_favorite_by_hadith` (favorites.py lines 282-313): 404
`Hadith not in favorites` when the pair is absent, otherwise delete every
row of the pair. -/
def remove_favorite_by_hadith (db : DB) (user_id : Nat) (hadith_id : String) :
    Except Err Unit × DB :=
  match db.favorites.find? (fun f => f.user_id == user_id && f.hadith_id == hadith_id) with
  | none => (.error (.notFound "Hadith not in favorites"), db)
  | some _ =>
    let favs := db.favorites.filter (fun f => !(f.user_id == user_id && f.hadith_id == hadith_id))
    (.ok (), { db with favorites := favs })

/-- Embeds the endpoint `get_favorite` (favorites.py lines 198-213): fetch
through `get_favorite_with_hadith`, 404 when it yields nothing. -/
def get_favorite (db : DB) (favorite_id : Nat) (user_id : Nat) :
    Except Err (Favorite × Hadith) :=
  match get_favorite_with_hadith db favorite_id user_id with
  | none => .error (.notFound "Favorite not found")
  | some p => .ok p

/-- Embeds `update_favorite` (favorites.py lines 215-252): 404 unless a
favorite row with this primary key belongs to the caller, otherwise set its
`notes` and return the updated row. -/
def update_favorite (db : DB) (favorite_id : Nat) (user_id : Nat)
    (notes : Option String) : Except Err (Option (Favorite × Hadith)) × DB :=
  match db.favorites.find? (fun f => f.id == favorite_id && f.user_id == user_id) with
  | none => (.error (.notFound "Favorite not found"), db)
  | some _ =>
    let favs := db.favorites.map (fun f => if f.id == favorite_id then { f with notes := notes } else f)
    let db1 : DB := { db with favorites := favs }
    (.ok (get_favorite_with_hadith db1 favorite_id user_id), db1)

/-- Embeds `remove_favorite` (favorites.py lines 254-280): 404 unless a
favorite row with this primary key belongs to the caller, otherwise delete
by primary key. -/
def remove_favorite (db : DB) (favorite_id : Nat) (user_id : Nat) :
    Except Err Unit × DB :=
  match db.favorites.find? (fun f => f.id == favorite_id && f.user_id == user_id) with
  | none => (.error (.notFound "Favorite not found"), db)
  | some _ =>
    let favs := db.favorites.filter (fun f => !(f.id == favorite_id))
    (.ok (), { db with favorites := favs })

/-! ### Reachable-state invariants

The schema (`database.py`) declares `UniqueConstraint(user_id, hadith_id)`
on `favorites` and an autoincrement primary key, so in every reachable
store state the (user, hadith) pairs are pairwise distinct and every stored
`id` is below the autoincrement counter. -/

/-- Uniqueness of the (user_id, hadith_id) pair across favorite rows. -/
def favPairUnique (db : DB) : Prop :=
  db.favorites.Pairwise (fun f f1 => ¬(f.user_id = f1.user_id ∧ f.hadith_id = f1.hadith_id))

/-- Every stored favorite id is below the autoincrement counter. -/
def favIdsFresh (db : DB) : Bool :=
  db.favorites.all (fun f => f.id < db.nextFavoriteId)

/-- Pairwise distinctness of favorite primary keys. -/
def favIdsUnique (db : DB) : Prop :=
  db.favorites.Pairwise (fun f f1 => f.id ≠ f1.id)

/-! ### Lemmas about the stable sort -/

/-- Ordering relation of the sort key. -/
def leNum (x y : Hadith) : Prop := x.hadith_number ≤ y.hadith_number

theorem length_insertByNumber (a : Hadith) (l : List Hadith) :
    (insertByNumber a l).length = l.length + 1 := by
  induction l with
  | nil => rfl
  | cons b l ih =>
    simp only [insertByNumber]
    split <;> simp [ih]

theorem mem_insertByNumber {x a : Hadith} {l : List Hadith} :
    x ∈ insertByNumber a l ↔ x = a ∨ x ∈ l := by
  induction l with
  | nil => simp [insertByNumber]
  | cons b l ih =>
    simp only [insertByNumber]
    split
    · simp [ih]
      tauto
    · simp


theorem pairwise_insertByNumber {a : Hadith} {l : List Hadith}
    (hl : l.Pairwise leNum) : (insertByNumber a l).Pairwise leNum := by
  induction l with
  | nil => simp [insertByNumber]
  | cons b l ih =>
    rcases List.pairwise_cons.1 hl with ⟨hb, hl1⟩
    simp only [insertByNumber]
    split
    · rename_i hba
      refine List.pairwise_cons.2 ⟨?_, ih hl1⟩
      intro x hx
      rcases mem_insertByNumber.1 hx with rfl | hx
      · exact hba
      · exact hb x hx
    · rename_i hba
      have hab : leNum a b := Nat.le_of_lt (Nat.lt_of_not_le hba)
      refine List.pairwise_cons.2 ⟨?_, hl⟩
      intro x hx
      rcases List.mem_cons.1 hx with rfl | hx
      · exact hab
      · exact Nat.le_trans hab (hb x hx)

theorem length_foldl_insertByNumber (l acc : List Hadith) :
    (l.foldl (fun acc a => insertByNumber a acc) acc).length = acc.length + l.length := by
  induction l generalizing acc with
  | nil => simp
  | cons a l ih =>
    simp only [List.foldl_cons, ih, length_insertByNumber, List.length_cons]
    omega

theorem length_sortByNumber (l : List Hadith) : (sortByNumber l).length = l.length := by
  simp [sortByNumber, length_foldl_insertByNumber]

theorem mem_foldl_insertByNumber {x : Hadith} (l acc : List Hadith) :
    x ∈ l.foldl (fun acc a => insertByNumber a acc) acc ↔ x ∈ acc ∨ x ∈ l := by
  induction l generalizing acc with
  | nil => simp
  | cons a l ih =>
    simp only [List.foldl_cons, ih, mem_insertByNumber, List.mem_cons]
    tauto

theorem mem_sortByNumber {x : Hadith} {l : List Hadith} :
    x ∈ sortByNumber l ↔ x ∈ l := by
  simp [sortByNumber, mem_foldl_insertByNumber]

theorem pairwise_foldl_insertByNumber (l acc : List Hadith)
    (h : acc.Pairwise leNum) :
    (l.foldl (fun acc a => insertByNumber a acc) acc).Pairwise leNum := by
  induction l generalizing acc with
  | nil => simpa
  | cons a l ih => exact ih _ (pairwise_insertByNumber h)

theorem pairwise_sortByNumber (l : List Hadith) :
    (sortByNumber l).Pairwise leNum :=
  pairwise_foldl_insertByNumber l [] (by simp)

/-! ### Lemmas about queries -/

theorem queryRows_of_refIntegrity {db : DB} (conds : Hadith → Bool)
    (h : refIntegrity db = true) :
    queryRows db conds = db.hadiths.filter conds := by
  unfold queryRows
  apply List.filter_congr
  intro x hx
  have hx1 : joinOk db x = true := by
    have := List.all_eq_true.1 h
    exact this x hx
  simp [hx1]

theorem find?_and_of_find? {l : List Hadith} {p q : Hadith → Bool} {h : Hadith}
    (hf : l.find? p = some h) (hq : ∀ x ∈ l, p x = true → q x = true) :
    l.find? (fun x => p x && q x) = some h := by
  induction l with
  | nil => simp at hf
  | cons a l ih =>
    by_cases hpa : p a = true
    · rw [List.find?_cons_of_pos _ hpa] at hf
      have hqa : q a = true := hq a (by simp) hpa
      rw [List.find?_cons_of_pos _ (by simp [hpa, hqa])]
      exact hf
    · rw [List.find?_cons_of_neg _ hpa] at hf
      rw [List.find?_cons_of_neg _ (by simp [hpa])]
      exact ih hf (fun x hx => hq x (by simp [hx]))

theorem isFavorited_iff_find? {db : DB} {u : Nat} {hid : String} :
    isFavorited db u hid = true ↔
      (db.favorites.find? (fun f => f.user_id == u && f.hadith_id == hid)).isSome := by
  rw [isFavorited, List.any_eq_true, List.find?_isSome]

/-! ### Behaviour of the daily pick -/

theorem get_daily_hadith_success {σ : Type} (g : PRNG σ) (db : DB) (d : String)
    (dt today : PyDate) (st : σ)
    (hp : parseDate d = some dt)
    (hn : (queryRows db sahihFilter).length ≠ 0) :
    (g.randint (g.seed (toOrdinal dt)) 0 ((queryRows db sahihFilter).length - 1)).1 <
      (queryRows db sahihFilter).length ∧
    ∃ h : Hadith,
      (sortByNumber (queryRows db sahihFilter))[(g.randint (g.seed (toOrdinal dt)) 0
          ((queryRows db sahihFilter).length - 1)).1]? = some h ∧
      get_daily_hadith g db (some d) today st =
        (.ok h, (g.randint (g.seed (toOrdinal dt)) 0
          ((queryRows db sahihFilter).length - 1)).2) := by
  have hk : (g.randint (g.seed (toOrdinal dt)) 0
      ((queryRows db sahihFilter).length - 1)).1 ≤ (queryRows db sahihFilter).length - 1 :=
    (g.randint_le _ 0 _ (Nat.zero_le _)).2
  have hk2 : (g.randint (g.seed (toOrdinal dt)) 0
      ((queryRows db sahihFilter).length - 1)).1 < (queryRows db sahihFilter).length := by
    omega
  have hlen : (sortByNumber (queryRows db sahihFilter)).length =
      (queryRows db sahihFilter).length := length_sortByNumber _
  have hk3 : (g.randint (g.seed (toOrdinal dt)) 0
      ((queryRows db sahihFilter).length - 1)).1 <
      (sortByNumber (queryRows db sahihFilter)).length := by omega
  obtain ⟨h, hget⟩ : ∃ h : Hadith,
      (sortByNumber (queryRows db sahihFilter))[(g.randint (g.seed (toOrdinal dt)) 0
        ((queryRows db sahihFilter).length - 1)).1]? = some h := by
    rw [List.getElem?_eq_getElem hk3]
    exact ⟨_, rfl⟩
  refine ⟨hk2, h, hget, ?_⟩
  simp only [get_daily_hadith, hp]
  rw [if_neg hn]
  rw [List.head?_drop, hget]

theorem get_daily_hadith_state_indep {σ : Type} (g : PRNG σ) (db : DB) (d : String)
    (dt today1 today2 : PyDate) (s1 s2 : σ)
    (hp : parseDate d = some dt) :
    (get_daily_hadith g db (some d) today1 s1).2 =
    (get_daily_hadith g db (some d) today2 s2).2 := by
  simp only [get_daily_hadith, hp]

/-! ### Concrete fixtures used by witnesses and counterexamples -/

/-- Concrete generator instance: `randint` returns the lower bound and steps
the state. Any `PRNG` works in the theorems; this one makes them
evaluable. -/
def g0 : PRNG Nat where
  seed := fun n => n
  randint := fun st a _b => (a, st + 1)
  randint_le := by
    intro st a b h
    exact ⟨Nat.le_refl a, h⟩

/-- Concrete collection row. -/
def col0 : Collection := ⟨"riyad"⟩

/-- Concrete chapter row. -/
def chap0 : Chapter := ⟨"riyad-1", "riyad"⟩

/-- Concrete Sahih hadith row. -/
def had0 : Hadith := ⟨"riyad-1-1", "riyad", "riyad-1", 1, "Sahih"⟩

/-- Concrete database with one Sahih hadith and no favorites. -/
def db0 : DB := ⟨[col0], [chap0], [had0], [], 1⟩

/-- Concrete fallback date used for the `today` parameter. -/
def today0 : PyDate := ⟨2024, 5, 1⟩

/-! ### C1 -/

/-- C1: for every valid date string `d` and every fixed database state with
a non-empty set of Sahih-graded hadiths, two calls to `GET /hadiths/daily`
with `date_param = d` return the identical hadith, whatever the module
generator state and fallback date of each call. -/
theorem daily_pick_deterministic {σ : Type} (g : PRNG σ) (db : DB) (d : String)
    (dt today1 today2 : PyDate) (s1 s2 : σ)
    (hp : parseDate d = some dt)
    (hint : refIntegrity db = true)
    (hne : (db.hadiths.filter sahihFilter).length ≠ 0) :
    ∃ h : Hadith,
      (get_daily_hadith g db (some d) today1 s1).1 = .ok h ∧
      (get_daily_hadith g db (some d) today2 s2).1 = .ok h := by
  have hq : (queryRows db sahihFilter).length ≠ 0 := by
    rw [queryRows_of_refIntegrity sahihFilter hint]
    exact hne
  obtain ⟨-, h, hh, he1⟩ := get_daily_hadith_success g db d dt today1 s1 hp hq
  obtain ⟨-, h2, hh2, he2⟩ := get_daily_hadith_success g db d dt today2 s2 hp hq
  refine ⟨h, by rw [he1], ?_⟩
  rw [hh] at hh2
  cases hh2
  rw [he2]

/-- C1 witness: two concrete daily calls on the one-Sahih database return
the same hadith. -/
theorem daily_pick_deterministic_witness :
    ∃ h : Hadith,
      (get_daily_hadith g0 db0 (some "2024-01-15") today0 0).1 = .ok h ∧
      (get_daily_hadith g0 db0 (some "2024-01-15") ⟨2024, 6, 2⟩ 77).1 = .ok h :=
  daily_pick_deterministic g0 db0 "2024-01-15" ⟨2024, 1, 15⟩ today0 ⟨2024, 6, 2⟩ 0 77
    (by decide) (by decide) (by decide)

/-! ### C2 -/

/-- C2: for every valid date and every database state with referential
integrity in which `n > 0` hadiths carry grade Sahih, the daily pick seeds
the generator with the proleptic ordinal of the date, draws one integer
`k` in `[0, n)`, and returns the row at offset `k` of the Sahih rows
ordered ascending by `hadith_number`. -/
theorem daily_pick_algorithm {σ : Type} (g : PRNG σ) (db : DB) (d : String)
    (dt today : PyDate) (st : σ)
    (hp : parseDate d = some dt)
    (hint : refIntegrity db = true)
    (hne : 0 < (db.hadiths.filter sahihFilter).length) :
    ∃ k : Nat,
      k = (g.randint (g.seed (toOrdinal dt)) 0
        ((db.hadiths.filter sahihFilter).length - 1)).1 ∧
      k < (db.hadiths.filter sahihFilter).length ∧
      ∃ h : Hadith,
        (sortByNumber (db.hadiths.filter sahihFilter))[k]? = some h ∧
        (get_daily_hadith g db (some d) today st).1 = .ok h := by
  have hq : queryRows db sahihFilter = db.hadiths.filter sahihFilter :=
    queryRows_of_refIntegrity sahihFilter hint
  have hq0 : (queryRows db sahihFilter).length ≠ 0 := by
    rw [hq]; omega
  obtain ⟨hk, h, hh, he⟩ := get_daily_hadith_success g db d dt today st hp hq0
  rw [hq] at hk hh he
  exact ⟨_, rfl, hk, h, hh, by rw [he]⟩

/-- C2 witness: on the one-Sahih database the drawn offset is 0 and the
returned row is that single hadith. -/
theorem daily_pick_algorithm_witness :
    ∃ k : Nat,
      k = (g0.randint (g0.seed (toOrdinal ⟨2024, 1, 15⟩)) 0
        ((db0.hadiths.filter sahihFilter).length - 1)).1 ∧
      k < (db0.hadiths.filter sahihFilter).length ∧
      ∃ h : Hadith,
        (sortByNumber (db0.hadiths.filter sahihFilter))[k]? = some h ∧
        (get_daily_hadith g0 db0 (some "2024-01-15") today0 3).1 = .ok h :=
  daily_pick_algorithm g0 db0 "2024-01-15" ⟨2024, 1, 15⟩ today0 3
    (by decide) (by decide) (by decide)

/-! ### C5

`get_daily_hadith` reseeds the process-wide `random` module generator from
the date (hadiths.py line 195) and `get_random_hadith` draws its offset
from that same module generator (line 269). After a daily call for date
`d`, the random call therefore draws from a state that is a function of
`d` alone, not of any prior entropy. -/

/-- C5: a random call made right after a daily call for date `d` yields a
result that does not depend on the module generator state before the daily
call: the drawn offset has become a deterministic function of the date,
the data and the generator implementation, because the two endpoints share
the process-wide generator. -/
theorem random_after_daily_determined_by_date {σ : Type} (g : PRNG σ) (db : DB)
    (d : String) (dt today1 today2 : PyDate) (cid gr : Option String)
    (ex : Bool) (uid : Option Nat) (s1 s2 : σ)
    (hp : parseDate d = some dt) :
    get_random_hadith g db cid gr ex uid (get_daily_hadith g db (some d) today1 s1).2 =
    get_random_hadith g db cid gr ex uid (get_daily_hadith g db (some d) today2 s2).2 := by
  rw [get_daily_hadith_state_indep g db d dt today1 today2 s1 s2 hp]

/-- C5 witness: concrete daily-then-random sequences started from the two
distinct generator states 0 and 999 give the same random response. -/
theorem random_after_daily_determined_by_date_witness :
    get_random_hadith g0 db0 none none false none
        (get_daily_hadith g0 db0 (some "2024-01-15") today0 0).2 =
      get_random_hadith g0 db0 none none false none
        (get_daily_hadith g0 db0 (some "2024-01-15") today0 999).2 :=
  random_after_daily_determined_by_date g0 db0 "2024-01-15" ⟨2024, 1, 15⟩
    today0 today0 none none false none 0 999 (by decide)

/-! ### C8 -/

/-- Follows the claim text `of the form YYYY-MM-DD`: exactly four digits,
a dash, two digits, a dash, two digits. -/
def isYYYYMMDDform (s : String) : Bool :=
  match s.toList with
  | [y1, y2, y3, y4, s1, m1, m2, s2, d1, d2] =>
    y1.isDigit && y2.isDigit && y3.isDigit && y4.isDigit && s1 == '-' &&
    m1.isDigit && m2.isDigit && s2 == '-' && d1.isDigit && d2.isDigit
  | _ => false

/-- C8 counterexample: the string `2024-1-1` is not of the form
`YYYY-MM-DD`, yet the endpoint accepts it and succeeds (CPython
`strptime` matches `%m` and `%d` against one- or two-digit numbers), so
the claim that every string not of that form yields a 400 error is false. -/
theorem daily_date_form_counterexample :
    isYYYYMMDDform "2024-1-1" = false ∧
    (get_daily_hadith g0 db0 (some "2024-1-1") today0 0).1 = .ok had0 := by
  exact ⟨by decide, rfl⟩

/-- C8 amended: the daily endpoint fails with 400 exactly when
`strptime(date_param, "%Y-%m-%d")` rejects the string (four-digit year,
one- or two-digit month and day forming a valid calendar date), fails with
404 when the eligible set is empty, and succeeds otherwise. -/
theorem daily_error_contract {σ : Type} (g : PRNG σ) (db : DB) (d : String)
    (today : PyDate) (st : σ) :
    (parseDate d = none →
      (get_daily_hadith g db (some d) today st).1 =
        .error (.badRequest "Invalid date format. Use YYYY-MM-DD") ∧
      Err.statusCode (.badRequest "Invalid date format. Use YYYY-MM-DD") = 400) ∧
    (∀ dt : PyDate, parseDate d = some dt →
      (queryRows db sahihFilter).length = 0 →
      (get_daily_hadith g db (some d) today st).1 =
        .error (.notFound "No hadiths available for daily selection") ∧
      Err.statusCode (.notFound "No hadiths available for daily selection") = 404) ∧
    (∀ dt : PyDate, parseDate d = some dt →
      (queryRows db sahihFilter).length ≠ 0 →
      ∃ h : Hadith, (get_daily_hadith g db (some d) today st).1 = .ok h) := by
  refine ⟨?_, ?_, ?_⟩
  · intro hp
    refine ⟨?_, rfl⟩
    simp only [get_daily_hadith, hp]
  · intro dt hp h0
    refine ⟨?_, rfl⟩
    simp only [get_daily_hadith, hp]
    rw [if_pos h0]
  · intro dt hp hn
    obtain ⟨-, h, -, he⟩ := get_daily_hadith_success g db d dt today st hp hn
    exact ⟨h, by rw [he]⟩

/-- C8 amended witness: the three branches at concrete inputs: a malformed
date gives the 400 error, an empty eligible set gives the 404 error, and
the one-Sahih database succeeds. -/
theorem daily_error_contract_witness :
    ((get_daily_hadith g0 db0 (some "not-a-date") today0 0).1 =
        .error (.badRequest "Invalid date format. Use YYYY-MM-DD") ∧
      Err.statusCode (.badRequest "Invalid date format. Use YYYY-MM-DD") = 400) ∧
    ((get_daily_hadith g0 ⟨[col0], [chap0], [], [], 1⟩ (some "2024-01-15") today0 0).1 =
        .error (.notFound "No hadiths available for daily selection") ∧
      Err.statusCode (.notFound "No hadiths available for daily selection") = 404) ∧
    (∃ h : Hadith, (get_daily_hadith g0 db0 (some "2024-01-15") today0 0).1 = .ok h) :=
  ⟨(daily_error_contract g0 db0 "not-a-date" today0 0).1 (by decide),
   (daily_error_contract g0 ⟨[col0], [chap0], [], [], 1⟩ "2024-01-15" today0 0).2.1
     ⟨2024, 1, 15⟩ (by decide) (by decide),
   (daily_error_contract g0 db0 "2024-01-15" today0 0).2.2
     ⟨2024, 1, 15⟩ (by decide) (by decide)⟩

/-! ### C3 -/

/-- Lexicographic comparison of character lists by code point. -/
def charsLe : List Char → List Char → Bool
  | [], _ => true
  | _ :: _, [] => false
  | a :: as, b :: bs =>
    if a.toNat < b.toNat then true
    else if b.toNat < a.toNat then false
    else charsLe as bs

/-- Lexicographic string comparison used for the id tie-break. -/
def idLe (a b : String) : Bool := charsLe a.toList b.toList

/-- Follows the claim text `ordered ascending by hadith_number with ties
broken by id`: key comparison on the (hadith_number, id) pair. -/
def keyLeNumId (x y : Hadith) : Bool :=
  decide (x.hadith_number < y.hadith_number) ||
  (decide (x.hadith_number = y.hadith_number) && idLe x.id y.id)

/-- Follows the claim text: insertion step of the (hadith_number, id)
ordering. -/
def insertByNumberId (a : Hadith) : List Hadith → List Hadith
  | [] => [a]
  | b :: l => if keyLeNumId b a then b :: insertByNumberId a l else a :: b :: l

/-- Follows the claim text: sort ascending by hadith_number with ties
broken by ascending id. -/
def sortByNumberThenId (l : List Hadith) : List Hadith :=
  l.foldl (fun acc a => insertByNumberId a acc) []

/-- Two collections whose hadiths tie on `hadith_number`. -/
def colA : Collection := ⟨"c-a"⟩

/-- Second collection of the tie fixture. -/
def colB : Collection := ⟨"c-b"⟩

/-- Chapter of the first tie-fixture collection. -/
def chapA : Chapter := ⟨"ch-a", "c-a"⟩

/-- Chapter of the second tie-fixture collection. -/
def chapB : Chapter := ⟨"ch-b", "c-b"⟩

/-- Tie-fixture hadith with the smaller id, stored second. -/
def rowA : Hadith := ⟨"a", "c-a", "ch-a", 1, "Sahih"⟩

/-- Tie-fixture hadith with the larger id, stored first. -/
def rowB : Hadith := ⟨"b", "c-b", "ch-b", 1, "Sahih"⟩

/-- Database in which two hadiths from different collections share
`hadith_number = 1` and the one with the larger id is stored first. The
schema only makes `hadith_number` unique per collection, so this state is
schema-consistent. -/
def db3 : DB := ⟨[colA, colB], [chapA, chapB], [rowB, rowA], [], 1⟩

/-- C3 counterexample: on `db3` the endpoint returns the tied rows in
stored order (larger id first), while the claimed ordering with ties
broken by id puts the smaller id first; the query orders by
`hadith_number` alone and requests no id tie-break. -/
theorem list_tie_break_counterexample :
    (get_hadiths db3 (fun _ => true) 1 20).data = [rowB, rowA] ∧
    ((sortByNumberThenId (queryRows db3 (fun _ => true))).drop ((1 - 1) * 20)).take 20 =
      [rowA, rowB] ∧
    (get_hadiths db3 (fun _ => true) 1 20).data ≠
      ((sortByNumberThenId (queryRows db3 (fun _ => true))).drop ((1 - 1) * 20)).take 20 := by
  refine ⟨rfl, rfl, ?_⟩
  intro hcontra
  rw [show (get_hadiths db3 (fun _ => true) 1 20).data = [rowB, rowA] from rfl] at hcontra
  rw [show ((sortByNumberThenId (queryRows db3 (fun _ => true))).drop ((1 - 1) * 20)).take 20 =
    [rowA, rowB] from rfl] at hcontra
  simp [rowA, rowB] at hcontra

/-- C3 amended: the list endpoints return the slice of matching rows
ordered ascending by `hadith_number` (ties keep the stored order: the
query requests no id tie-break), starting at offset
`(page-1)*page_size`, of length at most `page_size`; and the collection
endpoint with an existing collection returns exactly the `get_hadiths`
pipeline applied to the collection-and-grade filter. -/
theorem list_slice_contract (db : DB) (conds : Hadith → Bool)
    (page page_size : Nat) :
    (get_hadiths db conds page page_size).data =
      ((sortByNumber (queryRows db conds)).drop ((page - 1) * page_size)).take page_size ∧
    (get_hadiths db conds page page_size).data.length ≤ page_size ∧
    (get_hadiths db conds page page_size).data.Pairwise leNum ∧
    (∀ x ∈ (get_hadiths db conds page page_size).data, conds x = true) ∧
    (∀ (cid : String) (grade : Option String),
      (db.collections.find? (fun c => c.id == cid)).isSome →
      get_hadiths_by_collection db cid grade page page_size =
        .ok (get_hadiths db (collectionConds cid grade) page page_size)) := by
  refine ⟨rfl, ?_, ?_, ?_, ?_⟩
  · exact List.length_take_le _ _
  · exact List.Pairwise.sublist
      ((List.take_sublist _ _).trans (List.drop_sublist _ _))
      (pairwise_sortByNumber _)
  · intro x hx
    have hx1 : x ∈ sortByNumber (queryRows db conds) :=
      List.mem_of_mem_drop (List.mem_of_mem_take hx)
    have hx2 : x ∈ queryRows db conds := mem_sortByNumber.1 hx1
    have hx3 := (List.mem_filter.1 hx2).2
    simp only [Bool.and_eq_true] at hx3
    exact hx3.2
  · intro cid grade hc
    unfold get_hadiths_by_collection
    cases hfind : db.collections.find? (fun c => c.id == cid) with
    | none => rw [hfind] at hc; simp at hc
    | some c => rfl

/-- C3 amended witness: concrete consequences on the one-Sahih database:
the returned row matches the filter, and the collection endpoint equals
the filtered pipeline. -/
theorem list_slice_contract_witness :
    sahihFilter had0 = true ∧
    get_hadiths_by_collection db0 "riyad" none 1 20 =
      .ok (get_hadiths db0 (collectionConds "riyad" none) 1 20) :=
  ⟨(list_slice_contract db0 sahihFilter 1 20).2.2.2.1 had0 (by decide),
   (list_slice_contract db0 sahihFilter 1 20).2.2.2.2 "riyad" none (by decide)⟩

/-! ### C4 -/

/-- C4: the metadata of a list page: `total_count` is the number of
matching rows ignoring pagination, `total_pages` is the ceiling of
`total_count / page_size` (stated both as Mathlib ceiling division and by
its Galois characterisation), `has_next = page < total_pages`,
`has_prev = page > 1`, and a page beyond the last yields an empty slice
(with this same metadata, since the metadata does not depend on the
slice). -/
theorem pagination_meta_contract (db : DB) (conds : Hadith → Bool)
    (page page_size : Nat) (hsize : 0 < page_size) :
    (get_hadiths db conds page page_size).meta.total_count =
      (queryRows db conds).length ∧
    (get_hadiths db conds page page_size).meta.total_pages =
      (queryRows db conds).length ⌈/⌉ page_size ∧
    (queryRows db conds).length ≤
      page_size * (get_hadiths db conds page page_size).meta.total_pages ∧
    (∀ m : Nat, (queryRows db conds).length ≤ page_size * m →
      (get_hadiths db conds page page_size).meta.total_pages ≤ m) ∧
    (get_hadiths db conds page page_size).meta.has_next =
      decide (page < (get_hadiths db conds page page_size).meta.total_pages) ∧
    (get_hadiths db conds page page_size).meta.has_prev = decide (1 < page) ∧
    ((get_hadiths db conds page page_size).meta.total_pages < page →
      (get_hadiths db conds page page_size).data = []) := by
  have hceil : (get_hadiths db conds page page_size).meta.total_pages =
      (queryRows db conds).length ⌈/⌉ page_size :=
    (Nat.ceilDiv_eq_add_pred_div _ _).symm
  have hle : (queryRows db conds).length ≤
      page_size * ((queryRows db conds).length ⌈/⌉ page_size) := by
    have := le_smul_ceilDiv (b := (queryRows db conds).length) hsize
    simpa [smul_eq_mul] using this
  refine ⟨rfl, hceil, ?_, ?_, rfl, rfl, ?_⟩
  · rw [hceil]; exact hle
  · intro m hm
    rw [hceil]
    exact (ceilDiv_le_iff_le_smul hsize).2 (by simpa [smul_eq_mul] using hm)
  · intro hbeyond
    have htp : (get_hadiths db conds page page_size).meta.total_pages ≤ page - 1 := by
      omega
    have hoff : (queryRows db conds).length ≤ (page - 1) * page_size := by
      calc (queryRows db conds).length
          ≤ page_size * (get_hadiths db conds page page_size).meta.total_pages := by
            rw [hceil]; exact hle
        _ ≤ page_size * (page - 1) := Nat.mul_le_mul_left _ htp
        _ = (page - 1) * page_size := Nat.mul_comm _ _
    show ((sortByNumber (queryRows db conds)).drop ((page - 1) * page_size)).take page_size = []
    rw [List.drop_eq_nil_of_le, List.take_nil]
    rw [length_sortByNumber]
    exact hoff

/-- C4 witness: concrete metadata on the one-Sahih database, and an empty
slice for page 5 of 20. -/
theorem pagination_meta_contract_witness :
    (get_hadiths db0 sahihFilter 1 20).meta.total_count =
      (queryRows db0 sahihFilter).length ∧
    (get_hadiths db0 sahihFilter 1 20).meta.total_pages =
      (queryRows db0 sahihFilter).length ⌈/⌉ 20 ∧
    (get_hadiths db0 sahihFilter 5 20).data = [] :=
  ⟨(pagination_meta_contract db0 sahihFilter 1 20 (by decide)).1,
   (pagination_meta_contract db0 sahihFilter 1 20 (by decide)).2.1,
   (pagination_meta_contract db0 sahihFilter 5 20 (by decide)).2.2.2.2.2.2 (by decide)⟩

/-! ### Lemmas about the favorites operations -/

theorem find?_old_favorites_none (db : DB) (u : Nat)
    (hfresh : favIdsFresh db = true) :
    db.favorites.find? (fun f => f.id == db.nextFavoriteId && f.user_id == u) = none := by
  rw [List.find?_eq_none]
  intro f hf
  have hlt : f.id < db.nextFavoriteId := by
    have := List.all_eq_true.1 hfresh f hf
    simpa using this
  simp only [Bool.and_eq_true, beq_iff_eq, not_and]
  intro hfe
  omega

theorem get_fresh_favorite (db : DB) (u : Nat) (hid : String) (h : Hadith)
    (hh : db.hadiths.find? (fun x => x.id == hid) = some h)
    (hint : refIntegrity db = true)
    (hfresh : favIdsFresh db = true) :
    get_favorite_with_hadith
      { db with favorites := db.favorites ++ [⟨db.nextFavoriteId, u, hid, none⟩],
                nextFavoriteId := db.nextFavoriteId + 1 }
      db.nextFavoriteId u = some (⟨db.nextFavoriteId, u, hid, none⟩, h) := by
  have hq : ∀ x ∈ db.hadiths, (x.id == hid) = true → joinOk db x = true :=
    fun x hx _ => List.all_eq_true.1 hint x hx
  have hhad : db.hadiths.find? (fun x => x.id == hid && joinOk db x) = some h :=
    find?_and_of_find? hh hq
  have hfind : (db.favorites ++ [(⟨db.nextFavoriteId, u, hid, none⟩ : Favorite)]).find?
      (fun f => f.id == db.nextFavoriteId && f.user_id == u) =
      some (⟨db.nextFavoriteId, u, hid, none⟩ : Favorite) := by
    rw [List.find?_append, find?_old_favorites_none db u hfresh]
    simp
  simp only [get_favorite_with_hadith]
  rw [hfind]
  show (match db.hadiths.find? (fun x => x.id == hid && joinOk db x) with
    | none => none
    | some x => some ((⟨db.nextFavoriteId, u, hid, none⟩ : Favorite), x)) =
    some (⟨db.nextFavoriteId, u, hid, none⟩, h)
  rw [hhad]

theorem no_pair_after_delete {db : DB} {u : Nat} {hid : String} {e : Favorite}
    (huniq : favPairUnique db)
    (he : db.favorites.find? (fun f => f.user_id == u && f.hadith_id == hid) = some e) :
    (db.favorites.filter (fun f => !(f.id == e.id))).any
      (fun f => f.user_id == u && f.hadith_id == hid) = false := by
  rw [List.any_eq_false]
  intro f hf
  obtain ⟨hfmem, hfid⟩ := List.mem_filter.1 hf
  have hep := List.find?_some he
  have hemem : e ∈ db.favorites := List.mem_of_find?_eq_some he
  simp only [Bool.and_eq_true, beq_iff_eq] at hep
  intro hfp
  simp only [Bool.and_eq_true, beq_iff_eq] at hfp
  have hfe : f ≠ e := by
    intro hcontra
    subst hcontra
    simp at hfid
  have hsym : Symmetric
      (fun f f1 : Favorite => ¬(f.user_id = f1.user_id ∧ f.hadith_id = f1.hadith_id)) := by
    intro x y hxy hcontra
    exact hxy ⟨hcontra.1.symm, hcontra.2.symm⟩
  exact List.Pairwise.forall hsym huniq hfmem hemem hfe ⟨hfp.1.trans hep.1.symm, hfp.2.trans hep.2.symm⟩

/-! ### C6 -/

/-- C6: per (user, hadith) pair with an existing hadith row, toggle is the
two-state machine: from Absent it creates the favorite row and returns it,
from Present it deletes the row and returns the removal acknowledgment,
and two toggles in a row restore the original presence state. Proved under
the reachable-state invariants (pair uniqueness, fresh autoincrement ids,
referential integrity). -/
theorem toggle_favorite_contract (db : DB) (u : Nat) (hid : String) (h : Hadith)
    (hh : db.hadiths.find? (fun x => x.id == hid) = some h)
    (hint : refIntegrity db = true)
    (hfresh : favIdsFresh db = true)
    (huniq : favPairUnique db) :
    (isFavorited db u hid = false →
      (toggle_favorite db u hid).1 =
        .ok (.added (some (⟨db.nextFavoriteId, u, hid, none⟩, h))) ∧
      isFavorited (toggle_favorite db u hid).2 u hid = true) ∧
    (isFavorited db u hid = true →
      (toggle_favorite db u hid).1 = .ok .removed ∧
      isFavorited (toggle_favorite db u hid).2 u hid = false) ∧
    isFavorited (toggle_favorite (toggle_favorite db u hid).2 u hid).2 u hid =
      isFavorited db u hid := by
  refine ⟨?_, ?_, ?_⟩
  · intro habs
    have habs1 : db.favorites.find? (fun f => f.user_id == u && f.hadith_id == hid) = none := by
      rw [← Option.not_isSome_iff_eq_none]
      intro hcontra
      rw [← isFavorited_iff_find?] at hcontra
      rw [habs] at hcontra
      cases hcontra
    simp only [toggle_favorite, hh, habs1]
    refine ⟨?_, ?_⟩
    · rw [get_fresh_favorite db u hid h hh hint hfresh]
    · simp [isFavorited]
  · intro hpres
    obtain ⟨e, he⟩ : ∃ e, db.favorites.find?
        (fun f => f.user_id == u && f.hadith_id == hid) = some e := by
      have := isFavorited_iff_find?.1 hpres
      exact Option.isSome_iff_exists.1 this
    simp only [toggle_favorite, hh, he]
    exact ⟨trivial, by simpa [isFavorited] using no_pair_after_delete huniq he⟩
  · cases hfav : isFavorited db u hid with
    | false =>
      have habs1 : db.favorites.find?
          (fun f => f.user_id == u && f.hadith_id == hid) = none := by
        rw [← Option.not_isSome_iff_eq_none]
        intro hcontra
        rw [← isFavorited_iff_find?] at hcontra
        rw [hfav] at hcontra
        cases hcontra
      have hall : ∀ f ∈ db.favorites,
          ¬((fun f => f.user_id == u && f.hadith_id == hid) f = true) :=
        List.find?_eq_none.1 habs1
      simp only [toggle_favorite, hh, habs1]
      have hfind2 : (db.favorites ++
          [(⟨db.nextFavoriteId, u, hid, none⟩ : Favorite)]).find?
          (fun f => f.user_id == u && f.hadith_id == hid) =
          some (⟨db.nextFavoriteId, u, hid, none⟩ : Favorite) := by
        rw [List.find?_append, habs1]
        simp
      simp only [toggle_favorite, hh, hfind2]
      simp only [isFavorited]
      rw [List.any_eq_false]
      intro f hf
      obtain ⟨hfmem, hfid⟩ := List.mem_filter.1 hf
      rcases List.mem_append.1 hfmem with hfold | hfnew
      · exact hall f hfold
      · simp only [List.mem_singleton] at hfnew
        subst hfnew
        simp at hfid
    | true =>
      obtain ⟨e, he⟩ : ∃ e, db.favorites.find?
          (fun f => f.user_id == u && f.hadith_id == hid) = some e := by
        have := isFavorited_iff_find?.1 hfav
        exact Option.isSome_iff_exists.1 this
      simp only [toggle_favorite, hh, he]
      have hnone2 : (db.favorites.filter (fun f => !(f.id == e.id))).find?
          (fun f => f.user_id == u && f.hadith_id == hid) = none := by
        rw [List.find?_eq_none]
        have := List.any_eq_false.1 (no_pair_after_delete huniq he)
        exact this
      simp only [toggle_favorite, hh, hnone2]
      simp [isFavorited]

theorem find?_pair_eq_none {db : DB} {u : Nat} {hid : String}
    (habs : isFavorited db u hid = false) :
    db.favorites.find? (fun f => f.user_id == u && f.hadith_id == hid) = none := by
  rw [← Option.not_isSome_iff_eq_none]
  intro hcontra
  rw [← isFavorited_iff_find?] at hcontra
  rw [habs] at hcontra
  cases hcontra

/-- Concrete favorite row: user 7 has favorited the fixture hadith. -/
def fav0 : Favorite := ⟨1, 7, "riyad-1-1", none⟩

/-- Concrete database in which user 7 already favorited the hadith. -/
def dbF : DB := ⟨[col0], [chap0], [had0], [fav0], 2⟩

/-- C6 witness: on the empty-favorites database, the first toggle creates
and returns the new favorite row, and two toggles restore the original
(absent) presence state. -/
theorem toggle_favorite_contract_witness :
    (toggle_favorite db0 7 "riyad-1-1").1 =
      .ok (.added (some (⟨1, 7, "riyad-1-1", none⟩, had0))) ∧
    isFavorited (toggle_favorite (toggle_favorite db0 7 "riyad-1-1").2 7 "riyad-1-1").2
      7 "riyad-1-1" = isFavorited db0 7 "riyad-1-1" :=
  ⟨((toggle_favorite_contract db0 7 "riyad-1-1" had0 (by decide) (by decide) (by decide)
      (by simp [favPairUnique, db0])).1 (by decide)).1,
   (toggle_favorite_contract db0 7 "riyad-1-1" had0 (by decide) (by decide) (by decide)
      (by simp [favPairUnique, db0])).2.2⟩

/-! ### C7 -/

/-- C7: the schema invariant that each (user_id, hadith_id) pair appears in
at most one favorite row is preserved by both favorite-creating operations,
explicit add and toggle, on every database state satisfying it (error
outcomes included, since they leave the state unchanged). -/
theorem favorites_pair_unique_preserved (db : DB) (u : Nat) (hid : String)
    (notes : Option String) (huniq : favPairUnique db) :
    favPairUnique (add_favorite db u hid notes).2 ∧
    favPairUnique (toggle_favorite db u hid).2 := by
  have hinsert : ∀ (nid : Nat) (nts : Option String),
      db.favorites.find? (fun f => f.user_id == u && f.hadith_id == hid) = none →
      (db.favorites ++ [(⟨nid, u, hid, nts⟩ : Favorite)]).Pairwise
        (fun f f1 => ¬(f.user_id = f1.user_id ∧ f.hadith_id = f1.hadith_id)) := by
    intro nid nts hex
    rw [List.pairwise_append]
    refine ⟨huniq, List.pairwise_singleton _ _, ?_⟩
    intro f hf g hg
    simp only [List.mem_singleton] at hg
    subst hg
    have := List.find?_eq_none.1 hex f hf
    simpa using this
  constructor
  · cases hh : db.hadiths.find? (fun x => x.id == hid) with
    | none => simp only [add_favorite, hh]; exact huniq
    | some h0 =>
      cases hex : db.favorites.find? (fun f => f.user_id == u && f.hadith_id == hid) with
      | some e => simp only [add_favorite, hh, hex]; exact huniq
      | none =>
        simp only [add_favorite, hh, hex]
        exact hinsert db.nextFavoriteId notes hex
  · cases hh : db.hadiths.find? (fun x => x.id == hid) with
    | none => simp only [toggle_favorite, hh]; exact huniq
    | some h0 =>
      cases hex : db.favorites.find? (fun f => f.user_id == u && f.hadith_id == hid) with
      | some e =>
        simp only [toggle_favorite, hh, hex]
        exact List.Pairwise.sublist (List.filter_sublist _) huniq
      | none =>
        simp only [toggle_favorite, hh, hex]
        exact hinsert db.nextFavoriteId none hex

/-- C7 witness: preservation instantiated on the empty-favorites
database. -/
theorem favorites_pair_unique_preserved_witness :
    favPairUnique (add_favorite db0 5 "riyad-1-1" none).2 ∧
    favPairUnique (toggle_favorite db0 5 "riyad-1-1").2 :=
  favorites_pair_unique_preserved db0 5 "riyad-1-1" none (by simp [favPairUnique, db0])

/-! ### C9 -/

/-- C9: for an existing hadith, explicit add fails with the
duplicate-favorite conflict error (HTTP 400, the status the error taxonomy
assigns to ConflictError) when the pair is already Present, and explicit
remove-by-hadith fails with NotFound (404) when the pair is Absent; both
failures leave the database unchanged. -/
theorem add_remove_state_validation (db : DB) (u : Nat) (hid : String)
    (notes : Option String) (h : Hadith)
    (hh : db.hadiths.find? (fun x => x.id == hid) = some h) :
    (isFavorited db u hid = true →
      add_favorite db u hid notes =
        (.error (.badRequest "Hadith already in favorites"), db) ∧
      Err.statusCode (.badRequest "Hadith already in favorites") = 400) ∧
    (isFavorited db u hid = false →
      remove_favorite_by_hadith db u hid =
        (.error (.notFound "Hadith not in favorites"), db) ∧
      Err.statusCode (.notFound "Hadith not in favorites") = 404) := by
  constructor
  · intro hpres
    obtain ⟨e, he⟩ := Option.isSome_iff_exists.1 (isFavorited_iff_find?.1 hpres)
    simp only [add_favorite, hh, he]
    exact ⟨trivial, rfl⟩
  · intro habs
    simp only [remove_favorite_by_hadith, find?_pair_eq_none habs]
    exact ⟨trivial, rfl⟩

/-- C9 witness: the conflict on the database where user 7 already
favorited the hadith, and the NotFound for user 9 who has no favorite. -/
theorem add_remove_state_validation_witness :
    (add_favorite dbF 7 "riyad-1-1" none =
        (.error (.badRequest "Hadith already in favorites"), dbF) ∧
      Err.statusCode (.badRequest "Hadith already in favorites") = 400) ∧
    (remove_favorite_by_hadith dbF 9 "riyad-1-1" =
        (.error (.notFound "Hadith not in favorites"), dbF) ∧
      Err.statusCode (.notFound "Hadith not in favorites") = 404) :=
  ⟨(add_remove_state_validation dbF 7 "riyad-1-1" none had0 (by decide)).1 (by decide),
   (add_remove_state_validation dbF 9 "riyad-1-1" none had0 (by decide)).2 (by decide)⟩

/-! ### C10 -/

/-- C10: favorites addressed by primary key are scoped to the requesting
user: when a favorite row belongs to user `a`, a get, update or delete of
that `favorite_id` issued by any other user `b` returns the NotFound error
(revealing nothing of the row) and leaves the database unchanged. Proved
under the primary-key uniqueness invariant of the favorites table. -/
theorem favorite_access_scoped (db : DB) (fav : Favorite) (a b : Nat)
    (notes : Option String)
    (hmem : fav ∈ db.favorites) (howner : fav.user_id = a) (hab : b ≠ a)
    (hids : favIdsUnique db) :
    get_favorite db fav.id b = .error (.notFound "Favorite not found") ∧
    update_favorite db fav.id b notes = (.error (.notFound "Favorite not found"), db) ∧
    remove_favorite db fav.id b = (.error (.notFound "Favorite not found"), db) := by
  have hsym : Symmetric (fun f f1 : Favorite => f.id ≠ f1.id) := by
    intro x y hxy hcontra
    exact hxy hcontra.symm
  have hnone : db.favorites.find? (fun f => f.id == fav.id && f.user_id == b) = none := by
    rw [List.find?_eq_none]
    intro f hf
    simp only [Bool.and_eq_true, beq_iff_eq, not_and]
    intro hfid hfb
    by_cases hfe : f = fav
    · subst hfe
      exact hab (hfb.symm.trans howner)
    · exact List.Pairwise.forall hsym hids hf hmem hfe hfid
  refine ⟨?_, ?_, ?_⟩
  · simp only [get_favorite, get_favorite_with_hadith, hnone]
  · simp only [update_favorite, hnone]
  · simp only [remove_favorite, hnone]

/-- C10 witness: user 9 cannot get, update or delete the favorite row of
user 7. -/
theorem favorite_access_scoped_witness :
    get_favorite dbF 1 9 = .error (.notFound "Favorite not found") ∧
    update_favorite dbF 1 9 (some "note") = (.error (.notFound "Favorite not found"), dbF) ∧
    remove_favorite dbF 1 9 = (.error (.notFound "Favorite not found"), dbF) :=
  favorite_access_scoped dbF fav0 7 9 (some "note") (by decide) rfl (by decide)
    (by simp [favIdsUnique, dbF])

end HadithApp
